import Mathlib

/-!
Shallow embedding of the MLR / utilization scripts of the MLR-UTILIZATION
repository, together with theorems settling the frozen claims about them.

Conventions of the embedding:
* dataframes become `List` of record structures, one structure per table;
* joins become `flatMap` over the left table of the matching rows of the
  right table (a left join emits a single all-`none` match when no row of
  the right table matches, exactly as the dataframe library does);
* datetime values become `Int` (only their ordering is ever used);
* monetary floating-point values become `ℚ`; the 2-decimal rounding the
  source applies (`.round(2)`, round half away from zero) becomes `round2`;
* a nullable column becomes an `Option`;
* the float result of a division by zero (`inf`/`NaN`, a defined value,
  not an exception) is modelled as `none` in the ratio column.
-/

/-- Rounding to two decimal places, half away from zero: the semantics of
the dataframe library's `.round(2)` on floats. -/
def round2 (x : ℚ) : ℚ :=
  (if x < 0 then -⌊(-x) * 100 + 1/2⌋ else (⌊x * 100 + 1/2⌋ : ℤ) : ℤ) / 100

/-- Row of the PA dataframe of `calculate_mlr` (MLR.py), after the casts at
the top of the function: columns `groupname`, `requestdate` (datetime),
`granted` (float). -/
structure PARow where
  groupname : String
  requestdate : Int
  granted : ℚ
deriving Repr, DecidableEq

/-- Row of `group_contract_dates` (MLR.py): columns `groupname`,
`startdate`, `enddate`, cast to datetime. -/
structure GroupContractRow where
  groupname : String
  startdate : Int
  enddate : Int
deriving Repr, DecidableEq

/-- Row of the CLAIMS dataframe of `calculate_mlr` after its casts:
`nhisgroupid` (Utf8), `encounterdatefrom` (datetime), `approvedamount`
(float). -/
structure ClaimRow where
  nhisgroupid : String
  encounterdatefrom : Int
  approvedamount : ℚ
deriving Repr, DecidableEq

/-- Row of the GROUPS dataframe of `calculate_mlr` after its cast:
`groupid` (Utf8) and `groupname`. -/
structure GroupRow where
  groupid : String
  groupname : String
deriving Repr, DecidableEq

/-- Row of the DEBIT dataframe of `calculate_mlr`: `CompanyName` (renamed
to `groupname` further down), `From` (converted to datetime),
`Description` (nullable) and `Amount`. -/
structure DebitRow where
  CompanyName : String
  From : Int
  Description : Option String
  Amount : ℚ
deriving Repr, DecidableEq

/-- Character-list test: does `l` start with `pat`? (Helper for substring
search and for `str.startswith`.) -/
def leadMatch : List Char → List Char → Bool
  | _, [] => true
  | [], _ :: _ => false
  | a :: as, b :: bs => a == b && leadMatch as bs

/-- Character-list substring test: does `pat` occur inside `l`? -/
def containsSub : List Char → List Char → Bool
  | [], pat => pat.isEmpty
  | a :: t, pat => leadMatch (a :: t) pat || containsSub t pat

/-- Embedding of `DEBIT['Description'].str.contains('tpa', case=False,
na=False)` (MLR.py line 462): a null description yields `False`; otherwise
the lower-cased description is searched for the substring "tpa". -/
def hasTpa : Option String → Bool
  | none => false
  | some s => containsSub (s.toList.map Char.toLower) ("tpa".toList)

/-- Embedding of `CURRENT_DEBIT` (MLR.py line 462): debit rows whose
description contains "tpa" (case-insensitively) are dropped. -/
def currentDebit (DEBIT : List DebitRow) : List DebitRow :=
  DEBIT.filter (fun r => !(hasTpa r.Description))

/-- Embedding of `pa_filtered` (MLR.py lines 430-432): inner join of PA
with the contract dates on `groupname`, keeping pairs whose `requestdate`
lies inside the contract window (both bounds inclusive). -/
def paFiltered (PA : List PARow) (gc : List GroupContractRow) :
    List (PARow × GroupContractRow) :=
  PA.flatMap (fun p =>
    (gc.filter (fun c =>
      c.groupname == p.groupname &&
      decide (c.startdate ≤ p.requestdate) && decide (p.requestdate ≤ c.enddate))).map
      (fun c => (p, c)))

/-- Distinct group names of the rows of `pa_filtered`: the keys produced by
its `group_by('groupname')`. -/
def paKeys (paF : List (PARow × GroupContractRow)) : List String :=
  (paF.map (fun pc => pc.1.groupname)).eraseDups

/-- Sum of `granted` over the rows of `pa_filtered` for one group:
the `Total cost` aggregate of `PA_mlr`. -/
def paTotal (paF : List (PARow × GroupContractRow)) (g : String) : ℚ :=
  ((paF.filter (fun pc => pc.1.groupname == g)).map (fun pc => pc.1.granted)).sum

/-- The `Total cost(PA)` aggregate as a partial map: `none` for a group
with no row in `pa_filtered` (such a group gets a null after the outer
join in the source). -/
def paAgg (paF : List (PARow × GroupContractRow)) (g : String) : Option ℚ :=
  if (paKeys paF).contains g then some (paTotal paF g) else none

/-- Embedding of `claims_with_dates` (MLR.py lines 443-454): CLAIMS
inner-joined to GROUPS on `nhisgroupid = groupid`, then to the contract
dates on `groupname`, keeping rows whose `encounterdatefrom` lies inside
the contract window. -/
def claimsJoined (CLAIMS : List ClaimRow) (GROUPS : List GroupRow)
    (gc : List GroupContractRow) : List (ClaimRow × GroupRow × GroupContractRow) :=
  CLAIMS.flatMap (fun cl =>
    (GROUPS.filter (fun gr => gr.groupid == cl.nhisgroupid)).flatMap (fun gr =>
      (gc.filter (fun c =>
        c.groupname == gr.groupname &&
        decide (c.startdate ≤ cl.encounterdatefrom) &&
        decide (cl.encounterdatefrom ≤ c.enddate))).map
        (fun c => (cl, gr, c))))

/-- Distinct group names of `claims_with_dates`: the keys of `claims_mlr`. -/
def claimsKeys (clF : List (ClaimRow × GroupRow × GroupContractRow)) : List String :=
  (clF.map (fun t => t.2.1.groupname)).eraseDups

/-- Sum of `approvedamount` per group over `claims_with_dates`. -/
def claimsTotal (clF : List (ClaimRow × GroupRow × GroupContractRow)) (g : String) : ℚ :=
  ((clF.filter (fun t => t.2.1.groupname == g)).map (fun t => t.1.approvedamount)).sum

/-- The `Total cost(claims)` aggregate as a partial map. -/
def claimsAgg (clF : List (ClaimRow × GroupRow × GroupContractRow)) (g : String) :
    Option ℚ :=
  if (claimsKeys clF).contains g then some (claimsTotal clF g) else none

/-- Embedding of `debit_with_dates` (MLR.py lines 471-475): the
TPA-filtered debit rows inner-joined (on `CompanyName`, renamed to
`groupname`) to the contract dates, keeping rows whose `From` date lies
inside the contract window. -/
def debitJoined (DEBIT : List DebitRow) (gc : List GroupContractRow) :
    List (DebitRow × GroupContractRow) :=
  (currentDebit DEBIT).flatMap (fun r =>
    (gc.filter (fun c =>
      c.groupname == r.CompanyName &&
      decide (c.startdate ≤ r.From) && decide (r.From ≤ c.enddate))).map
      (fun c => (r, c)))

/-- Distinct group names of `debit_with_dates`: the keys of
`DEBIT_BY_CLIENT`. -/
def debitKeys (dF : List (DebitRow × GroupContractRow)) : List String :=
  (dF.map (fun rc => rc.1.CompanyName)).eraseDups

/-- Sum of `Amount` per group over `debit_with_dates`: the `amount` column
of `DEBIT_BY_CLIENT` (renamed `Total cost(DEBIT_BY_CLIENT)`). -/
def debitTotal (dF : List (DebitRow × GroupContractRow)) (g : String) : ℚ :=
  ((dF.filter (fun rc => rc.1.CompanyName == g)).map (fun rc => rc.1.Amount)).sum

/-- The `Total cost(DEBIT_BY_CLIENT)` aggregate as a partial map. -/
def debitAgg (dF : List (DebitRow × GroupContractRow)) (g : String) : Option ℚ :=
  if (debitKeys dF).contains g then some (debitTotal dF g) else none

/-- Row of the `pa_merged` result of `calculate_mlr`: columns `groupname`,
`Total cost(DEBIT_BY_CLIENT)`, `Total cost(PA)`, `PA40%`, `commission` and
`MLR(PA) (%)`.  Nullable columns are `Option`; the ratio column is `none`
when the (null-filled) debit is 0, where the float code yields the
non-finite sentinel `inf`/`NaN` instead of raising. -/
structure PAMlrRow where
  groupname : String
  totalDebit : Option ℚ
  totalPA : Option ℚ
  pa40 : Option ℚ
  commission : Option ℚ
  mlrPA : Option ℚ
deriving Repr, DecidableEq

/-- Row of the `claims_merged` result of `calculate_mlr`. -/
structure ClaimsMlrRow where
  groupname : String
  totalDebit : Option ℚ
  totalClaims : Option ℚ
  commission : Option ℚ
  mlrClaims : Option ℚ
deriving Repr, DecidableEq

/-- One row of `pa_merged` for the group `g` (MLR.py lines 485-510):
`PA40% = (Total cost(PA) * 1.4).round(2)` (null for a group absent from
PA), `commission = (Total cost(DEBIT_BY_CLIENT) * 0.10).round(2)` (null
for a group absent from the debit aggregate), and
`MLR(PA) (%) = ((PA40%.fill_null(0) + commission.fill_null(0)) /
Total cost(DEBIT_BY_CLIENT).fill_null(0) * 100).round(2)`, whose division
by a zero debit produces the non-finite sentinel, modelled `none`. -/
def mkPAMlrRow (dOpt pOpt : Option ℚ) (g : String) : PAMlrRow :=
  let pa40 := pOpt.map (fun t => round2 (t * 1.4))
  let comm := dOpt.map (fun d => round2 (d * 0.10))
  let den := dOpt.getD 0
  { groupname := g
    totalDebit := dOpt
    totalPA := pOpt
    pa40 := pa40
    commission := comm
    mlrPA := if den = 0 then none
             else some (round2 ((pa40.getD 0 + comm.getD 0) / den * 100)) }

/-- One row of `claims_merged` for the group `g` (MLR.py lines 513-532). -/
def mkClaimsMlrRow (dOpt cOpt : Option ℚ) (g : String) : ClaimsMlrRow :=
  let comm := dOpt.map (fun d => round2 (d * 0.10))
  let den := dOpt.getD 0
  { groupname := g
    totalDebit := dOpt
    totalClaims := cOpt
    commission := comm
    mlrClaims := if den = 0 then none
                 else some (round2 ((cOpt.getD 0 + comm.getD 0) / den * 100)) }

/-- Keys of the outer join of `debit_df` with `pa_df`: every group present
in either aggregate, each once. -/
def paMergedKeys (paF : List (PARow × GroupContractRow))
    (dF : List (DebitRow × GroupContractRow)) : List String :=
  (debitKeys dF ++ paKeys paF).eraseDups

/-- The `pa_merged` dataframe: one row per group of the outer join. -/
def pa_merged (paF : List (PARow × GroupContractRow))
    (dF : List (DebitRow × GroupContractRow)) : List PAMlrRow :=
  (paMergedKeys paF dF).map (fun g => mkPAMlrRow (debitAgg dF g) (paAgg paF g) g)

/-- Keys of the outer join of `debit_df` with `claims_df`. -/
def claimsMergedKeys (clF : List (ClaimRow × GroupRow × GroupContractRow))
    (dF : List (DebitRow × GroupContractRow)) : List String :=
  (debitKeys dF ++ claimsKeys clF).eraseDups

/-- The `claims_merged` dataframe: one row per group of the outer join. -/
def claims_merged (clF : List (ClaimRow × GroupRow × GroupContractRow))
    (dF : List (DebitRow × GroupContractRow)) : List ClaimsMlrRow :=
  (claimsMergedKeys clF dF).map (fun g => mkClaimsMlrRow (debitAgg dF g) (claimsAgg clF g) g)

/-- Embedding of the body of `calculate_mlr` (MLR.py lines 417-535): the
pair `(pa_merged, claims_merged)`. -/
def calculate_mlr (PA : List PARow) (GROUP_CONTRACT : List GroupContractRow)
    (CLAIMS : List ClaimRow) (GROUPS : List GroupRow) (DEBIT : List DebitRow) :
    List PAMlrRow × List ClaimsMlrRow :=
  (pa_merged (paFiltered PA GROUP_CONTRACT) (debitJoined DEBIT GROUP_CONTRACT),
   claims_merged (claimsJoined CLAIMS GROUPS GROUP_CONTRACT)
     (debitJoined DEBIT GROUP_CONTRACT))

/-- Group contract of the spec's end-to-end example: one "Acme" contract
whose window is the dates 0..364 (standing for 2025-01-01..2025-12-31). -/
def exGC : List GroupContractRow := [⟨"Acme", 0, 364⟩]

/-- PA rows of the spec's end-to-end example: granted 1000 and 2000 inside
the window. -/
def exPA : List PARow := [⟨"Acme", 10, 1000⟩, ⟨"Acme", 20, 2000⟩]

/-- Debit rows of the spec's end-to-end example: one amount of 5000 inside
the window, description "Premium". -/
def exDEBIT : List DebitRow := [⟨"Acme", 15, some "Premium", 5000⟩]

/-- Helper: a row of `pa_merged` is `mkPAMlrRow` of the two aggregates at
some key of the outer join. -/
theorem mem_pa_merged {paF : List (PARow × GroupContractRow)}
    {dF : List (DebitRow × GroupContractRow)} {r : PAMlrRow}
    (h : r ∈ pa_merged paF dF) :
    ∃ g, g ∈ paMergedKeys paF dF ∧ r = mkPAMlrRow (debitAgg dF g) (paAgg paF g) g := by
  rcases List.mem_map.1 h with ⟨g, hg, hr⟩
  exact ⟨g, hg, hr.symm⟩

/-- Helper: a row of `claims_merged` is `mkClaimsMlrRow` of the two
aggregates at some key of the outer join. -/
theorem mem_claims_merged {clF : List (ClaimRow × GroupRow × GroupContractRow)}
    {dF : List (DebitRow × GroupContractRow)} {r : ClaimsMlrRow}
    (h : r ∈ claims_merged clF dF) :
    ∃ g, g ∈ claimsMergedKeys clF dF ∧
      r = mkClaimsMlrRow (debitAgg dF g) (claimsAgg clF g) g := by
  rcases List.mem_map.1 h with ⟨g, hg, hr⟩
  exact ⟨g, hg, hr.symm⟩

theorem round2_zero : round2 0 = 0 := by norm_num [round2]

/-- C1. Every row of the PA result of `calculate_mlr` with a nonzero
(null-filled) debit carries
`MLR(PA)% = round2((round2(TotalCost(PA)*1.4) + round2(TotalDebit*0.10)) /
TotalDebit * 100)` — the spec formula with missing aggregates substituted
by 0 (the `PA40%` and `commission` terms being the 2-decimal-rounded
columns of the output) — and on the spec's end-to-end example the output
row is exactly TotalDebit=5000, TotalCost(PA)=3000, PA40%=4200,
commission=500, MLR(PA)%=94. -/
theorem mlr_pa_ratio_formula :
    (∀ (PA : List PARow) (GC : List GroupContractRow) (CL : List ClaimRow)
        (GR : List GroupRow) (DB : List DebitRow) (r : PAMlrRow),
        r ∈ (calculate_mlr PA GC CL GR DB).1 →
        r.totalDebit.getD 0 ≠ 0 →
        r.mlrPA = some (round2 ((round2 (r.totalPA.getD 0 * 1.4) +
          round2 (r.totalDebit.getD 0 * 0.10)) / r.totalDebit.getD 0 * 100))) ∧
    (calculate_mlr exPA exGC [] [] exDEBIT).1 =
      [⟨"Acme", some 5000, some 3000, some 4200, some 500, some 94⟩] := by
  constructor
  · intro PA GC CL GR DB r hr hden
    rcases mem_pa_merged hr with ⟨g, _, rfl⟩
    rcases hd : debitAgg (debitJoined DB GC) g with _ | d
    · simp [mkPAMlrRow, hd] at hden
    · rcases hp : paAgg (paFiltered PA GC) g with _ | t
      · simp [mkPAMlrRow, hd, hp] at hden ⊢
        exact ⟨hden, by rw [round2_zero, zero_add]⟩
      · simp [mkPAMlrRow, hd, hp] at hden ⊢
        exact hden
  · simp [calculate_mlr, pa_merged, paMergedKeys, paFiltered, debitJoined, currentDebit,
      hasTpa, containsSub, leadMatch, exPA, exGC, exDEBIT, debitKeys, paKeys,
      List.eraseDups, List.eraseDups.loop, mkPAMlrRow, debitAgg, paAgg, debitTotal,
      paTotal, round2]
    norm_num

/-- C4. A group with a zero or absent debit aggregate still gets a result
row in both tables of `calculate_mlr`, and its ratio column holds the
defined sentinel (`none`, standing for the non-finite float of the
division by zero) instead of the computation raising. -/
theorem mlr_zero_debit_sentinel :
    (∀ (PA : List PARow) (GC : List GroupContractRow) (CL : List ClaimRow)
        (GR : List GroupRow) (DB : List DebitRow) (r : PAMlrRow),
        r ∈ (calculate_mlr PA GC CL GR DB).1 →
        r.totalDebit.getD 0 = 0 → r.mlrPA = none) ∧
    (∀ (PA : List PARow) (GC : List GroupContractRow) (CL : List ClaimRow)
        (GR : List GroupRow) (DB : List DebitRow) (r : ClaimsMlrRow),
        r ∈ (calculate_mlr PA GC CL GR DB).2 →
        r.totalDebit.getD 0 = 0 → r.mlrClaims = none) ∧
    (∀ (PA : List PARow) (GC : List GroupContractRow) (CL : List ClaimRow)
        (GR : List GroupRow) (DB : List DebitRow) (g : String),
        g ∈ paMergedKeys (paFiltered PA GC) (debitJoined DB GC) →
        ∃ r ∈ (calculate_mlr PA GC CL GR DB).1, r.groupname = g) ∧
    (∀ (PA : List PARow) (GC : List GroupContractRow) (CL : List ClaimRow)
        (GR : List GroupRow) (DB : List DebitRow) (g : String),
        g ∈ claimsMergedKeys (claimsJoined CL GR GC) (debitJoined DB GC) →
        ∃ r ∈ (calculate_mlr PA GC CL GR DB).2, r.groupname = g) := by
  refine ⟨?_, ?_, ?_, ?_⟩
  · intro PA GC CL GR DB r hr hden
    rcases mem_pa_merged hr with ⟨g, _, rfl⟩
    rcases hd : debitAgg (debitJoined DB GC) g with _ | d
    · simp [mkPAMlrRow, hd]
    · simp [mkPAMlrRow, hd] at hden ⊢
      exact hden
  · intro PA GC CL GR DB r hr hden
    rcases mem_claims_merged hr with ⟨g, _, rfl⟩
    rcases hd : debitAgg (debitJoined DB GC) g with _ | d
    · simp [mkClaimsMlrRow, hd]
    · simp [mkClaimsMlrRow, hd] at hden ⊢
      exact hden
  · intro PA GC CL GR DB g hg
    refine ⟨mkPAMlrRow (debitAgg (debitJoined DB GC) g) (paAgg (paFiltered PA GC) g) g,
      List.mem_map.2 ⟨g, hg, rfl⟩, by simp [mkPAMlrRow]⟩
  · intro PA GC CL GR DB g hg
    refine ⟨mkClaimsMlrRow (debitAgg (debitJoined DB GC) g)
      (claimsAgg (claimsJoined CL GR GC) g) g,
      List.mem_map.2 ⟨g, hg, rfl⟩, by simp [mkClaimsMlrRow]⟩

/-- C5. In every row of the merged MLR output (both the PA table and the
claims table), the commission column is exactly
`round2(TotalDebit * 0.10)` of that row's debit value (and null exactly
when the debit value is null). -/
theorem mlr_commission_formula :
    (∀ (PA : List PARow) (GC : List GroupContractRow) (CL : List ClaimRow)
        (GR : List GroupRow) (DB : List DebitRow) (r : PAMlrRow) (d : ℚ),
        r ∈ (calculate_mlr PA GC CL GR DB).1 →
        r.totalDebit = some d → r.commission = some (round2 (d * 0.10))) ∧
    (∀ (PA : List PARow) (GC : List GroupContractRow) (CL : List ClaimRow)
        (GR : List GroupRow) (DB : List DebitRow) (r : ClaimsMlrRow) (d : ℚ),
        r ∈ (calculate_mlr PA GC CL GR DB).2 →
        r.totalDebit = some d → r.commission = some (round2 (d * 0.10))) := by
  constructor
  · intro PA GC CL GR DB r d hr hd
    rcases mem_pa_merged hr with ⟨g, _, rfl⟩
    simp [mkPAMlrRow] at hd ⊢
    rw [hd]
    exact ⟨d, rfl, rfl⟩
  · intro PA GC CL GR DB r d hr hd
    rcases mem_claims_merged hr with ⟨g, _, rfl⟩
    simp [mkClaimsMlrRow] at hd ⊢
    rw [hd]
    exact ⟨d, rfl, rfl⟩

/-- C2. Every pair kept by the PA/contract join of `calculate_mlr` joins a
PA row to a contract of its own group whose window contains the
`requestdate` (both bounds inclusive); and a PA row whose `requestdate`
lies outside every contract window of its group leaves the whole output of
`calculate_mlr` — in particular every `Total cost(PA)` and `MLR(PA) (%)`
value — unchanged. -/
theorem pa_window_filter :
    (∀ (PA : List PARow) (GC : List GroupContractRow)
        (pr : PARow × GroupContractRow), pr ∈ paFiltered PA GC →
        pr.2.groupname = pr.1.groupname ∧ pr.2.startdate ≤ pr.1.requestdate ∧
          pr.1.requestdate ≤ pr.2.enddate) ∧
    (∀ (PA : List PARow) (GC : List GroupContractRow) (CL : List ClaimRow)
        (GR : List GroupRow) (DB : List DebitRow) (p : PARow),
        (∀ c ∈ GC, c.groupname = p.groupname →
          ¬(c.startdate ≤ p.requestdate ∧ p.requestdate ≤ c.enddate)) →
        calculate_mlr (p :: PA) GC CL GR DB = calculate_mlr PA GC CL GR DB) := by
  constructor
  · intro PA GC pr hpr
    rcases List.mem_flatMap.1 hpr with ⟨p, _, hin⟩
    rcases List.mem_map.1 hin with ⟨c, hc, rfl⟩
    rcases List.mem_filter.1 hc with ⟨_, hcond⟩
    simp only [Bool.and_eq_true, beq_iff_eq, decide_eq_true_eq] at hcond
    exact ⟨hcond.1.1, hcond.1.2, hcond.2⟩
  · intro PA GC CL GR DB p h
    have hnil : (GC.filter (fun c =>
        c.groupname == p.groupname &&
        decide (c.startdate ≤ p.requestdate) && decide (p.requestdate ≤ c.enddate))) = [] := by
      refine List.filter_eq_nil_iff.2 (fun c hc => ?_)
      simp only [Bool.and_eq_true, beq_iff_eq, decide_eq_true_eq, not_and]
      intro hcg hs
      exact h c hc hcg.1 ⟨hcg.2, hs⟩
    have hpa : paFiltered (p :: PA) GC = paFiltered PA GC := by
      simp only [paFiltered, List.flatMap_cons, hnil, List.map_nil, List.nil_append]
    simp only [calculate_mlr, hpa]

/-- C3. A debit row kept by the TPA filter never has "tpa" in its
description (case-insensitively), and removing a row whose description
does contain "tpa" leaves the whole output of `calculate_mlr` — in
particular every group's `Total cost(DEBIT_BY_CLIENT)` — unchanged. -/
theorem debit_tpa_excluded :
    (∀ (DB : List DebitRow) (r : DebitRow), r ∈ currentDebit DB →
        hasTpa r.Description = false) ∧
    (∀ (PA : List PARow) (GC : List GroupContractRow) (CL : List ClaimRow)
        (GR : List GroupRow) (d1 d2 : List DebitRow) (r : DebitRow),
        hasTpa r.Description = true →
        calculate_mlr PA GC CL GR (d1 ++ r :: d2) =
          calculate_mlr PA GC CL GR (d1 ++ d2)) := by
  constructor
  · intro DB r hr
    rcases List.mem_filter.1 hr with ⟨_, hcond⟩
    simpa using hcond
  · intro PA GC CL GR d1 d2 r h
    have hcd : currentDebit (d1 ++ r :: d2) = currentDebit (d1 ++ d2) := by
      simp [currentDebit, List.filter_append, List.filter_cons, h]
    have hdj : debitJoined (d1 ++ r :: d2) GC = debitJoined (d1 ++ d2) GC := by
      simp only [debitJoined, hcd]
    simp only [calculate_mlr, hdj]

/-- Helper: summing a constant over a list multiplies it by the length. -/
theorem sum_map_const_q {α : Type} (l : List α) (q : ℚ) :
    (l.map (fun _ => q)).sum = (l.length : ℚ) * q := by
  induction l with
  | nil => simp
  | cons a t ih =>
    simp [ih]
    ring

/-- C10. A debit row with a null description is never removed by the TPA
exclusion filter, and its `Amount` enters its group's
`Total cost(DEBIT_BY_CLIENT)` once for every contract window of its group
containing its `From` date (so it contributes whenever the date lies in
the window). -/
theorem debit_null_description_kept :
    ∀ (GC : List GroupContractRow) (DB : List DebitRow) (r : DebitRow),
      r.Description = none →
      currentDebit (r :: DB) = r :: currentDebit DB ∧
      debitTotal (debitJoined (r :: DB) GC) r.CompanyName =
        ((GC.filter (fun c => c.groupname == r.CompanyName &&
            decide (c.startdate ≤ r.From) && decide (r.From ≤ c.enddate))).length : ℚ) *
          r.Amount +
        debitTotal (debitJoined DB GC) r.CompanyName := by
  intro GC DB r hdesc
  have htpa : hasTpa r.Description = false := by rw [hdesc]; rfl
  have hcd : currentDebit (r :: DB) = r :: currentDebit DB := by
    simp [currentDebit, List.filter_cons, htpa]
  refine ⟨hcd, ?_⟩
  have hdj : debitJoined (r :: DB) GC =
      (GC.filter (fun c => c.groupname == r.CompanyName &&
        decide (c.startdate ≤ r.From) && decide (r.From ≤ c.enddate))).map
        (fun c => (r, c)) ++ debitJoined DB GC := by
    simp only [debitJoined, hcd, List.flatMap_cons]
  rw [hdj]
  simp only [debitTotal, List.filter_append, List.map_append, List.sum_append]
  have hkeep : (((GC.filter (fun c => c.groupname == r.CompanyName &&
      decide (c.startdate ≤ r.From) && decide (r.From ≤ c.enddate))).map
      (fun c => (r, c))).filter (fun rc => rc.1.CompanyName == r.CompanyName)) =
      ((GC.filter (fun c => c.groupname == r.CompanyName &&
      decide (c.startdate ≤ r.From) && decide (r.From ≤ c.enddate))).map
      (fun c => (r, c))) := by
    refine List.filter_eq_self.2 (fun rc hrc => ?_)
    rcases List.mem_map.1 hrc with ⟨c, _, rfl⟩
    simp
  rw [hkeep, List.map_map]
  have hfc : ((fun rc : DebitRow × GroupContractRow => rc.1.Amount) ∘
      (fun c : GroupContractRow => (r, c))) = fun _ => r.Amount := rfl
  rw [hfc, sum_map_const_q]

/-- The `pa_merged` row that `calculate_mlr` produces on the spec's
end-to-end example. -/
def exPARowOut : PAMlrRow := ⟨"Acme", some 5000, some 3000, some 4200, some 500, some 94⟩

/-- Evaluation of `calculate_mlr` on the spec's end-to-end example (helper
shared by the concrete instantiations below). -/
theorem calc_mlr_example_eval :
    (calculate_mlr exPA exGC [] [] exDEBIT).1 = [exPARowOut] := by
  simp [calculate_mlr, pa_merged, paMergedKeys, paFiltered, debitJoined, currentDebit,
    hasTpa, containsSub, leadMatch, exPA, exGC, exDEBIT, debitKeys, paKeys,
    List.eraseDups, List.eraseDups.loop, mkPAMlrRow, debitAgg, paAgg, debitTotal,
    paTotal, exPARowOut, round2]
  norm_num

/-- Witness for C1 at the spec's example. -/
theorem mlr_pa_ratio_formula_witness :
    exPARowOut ∈ (calculate_mlr exPA exGC [] [] exDEBIT).1 ∧
    exPARowOut.totalDebit.getD 0 ≠ 0 ∧
    exPARowOut.mlrPA = some (round2 ((round2 (exPARowOut.totalPA.getD 0 * 1.4) +
      round2 (exPARowOut.totalDebit.getD 0 * 0.10)) /
      exPARowOut.totalDebit.getD 0 * 100)) := by
  have hmem : exPARowOut ∈ (calculate_mlr exPA exGC [] [] exDEBIT).1 := by
    rw [mlr_pa_ratio_formula.2]
    exact List.mem_singleton.2 rfl
  have hden : exPARowOut.totalDebit.getD 0 ≠ 0 := by norm_num [exPARowOut]
  exact ⟨hmem, hden, mlr_pa_ratio_formula.1 exPA exGC [] [] exDEBIT exPARowOut hmem hden⟩

/-- The `pa_merged` row `calculate_mlr` produces on the example when the
debit table is empty: debit, commission and ratio are all null. -/
def exPAOnlyRow : PAMlrRow := ⟨"Acme", none, some 3000, some 4200, none, none⟩

/-- Evaluation of `calculate_mlr` on the example with no debit rows
(helper shared by the concrete instantiations below). -/
theorem calc_mlr_nodebit_eval :
    (calculate_mlr exPA exGC [] [] []).1 = [exPAOnlyRow] := by
  simp [calculate_mlr, pa_merged, paMergedKeys, paFiltered, debitJoined, currentDebit,
    hasTpa, containsSub, leadMatch, exPA, exGC, debitKeys, paKeys,
    List.eraseDups, List.eraseDups.loop, mkPAMlrRow, debitAgg, paAgg, debitTotal,
    paTotal, exPAOnlyRow, round2]
  norm_num

/-- Witness for C4: the group "Acme" has PA cost but no debit at all; its
result row exists and its ratio is the sentinel. -/
theorem mlr_zero_debit_sentinel_witness :
    exPAOnlyRow ∈ (calculate_mlr exPA exGC [] [] []).1 ∧
    exPAOnlyRow.totalDebit.getD 0 = 0 ∧
    exPAOnlyRow.mlrPA = none := by
  have hmem : exPAOnlyRow ∈ (calculate_mlr exPA exGC [] [] []).1 := by
    rw [calc_mlr_nodebit_eval]
    exact List.mem_singleton.2 rfl
  have hden : exPAOnlyRow.totalDebit.getD 0 = 0 := by simp [exPAOnlyRow]
  exact ⟨hmem, hden,
    mlr_zero_debit_sentinel.1 exPA exGC [] [] [] exPAOnlyRow hmem hden⟩

/-- Witness for C5 at the spec's example: debit 5000 gives commission 500. -/
theorem mlr_commission_formula_witness :
    exPARowOut ∈ (calculate_mlr exPA exGC [] [] exDEBIT).1 ∧
    exPARowOut.totalDebit = some 5000 ∧
    exPARowOut.commission = some (round2 (5000 * 0.10)) := by
  have hmem : exPARowOut ∈ (calculate_mlr exPA exGC [] [] exDEBIT).1 := by
    rw [calc_mlr_example_eval]
    exact List.mem_singleton.2 rfl
  exact ⟨hmem, rfl,
    mlr_commission_formula.1 exPA exGC [] [] exDEBIT exPARowOut 5000 hmem rfl⟩

/-- A PA row of the example's group whose request date (1000) falls after
the example contract window 0..364. -/
def exLatePA : PARow := ⟨"Acme", 1000, 777⟩

/-- Witness for C2: adding the out-of-window PA row to the example changes
nothing in the output of `calculate_mlr`. -/
theorem pa_window_filter_witness :
    (∀ c ∈ exGC, c.groupname = exLatePA.groupname →
      ¬(c.startdate ≤ exLatePA.requestdate ∧ exLatePA.requestdate ≤ c.enddate)) ∧
    calculate_mlr (exLatePA :: exPA) exGC [] [] exDEBIT =
      calculate_mlr exPA exGC [] [] exDEBIT := by
  have h : ∀ c ∈ exGC, c.groupname = exLatePA.groupname →
      ¬(c.startdate ≤ exLatePA.requestdate ∧ exLatePA.requestdate ≤ c.enddate) := by
    intro c hc
    simp only [exGC, List.mem_singleton] at hc
    subst hc
    simp [exLatePA]
  exact ⟨h, pa_window_filter.2 exPA exGC [] [] exDEBIT exLatePA h⟩

/-- A debit row marked as a TPA administrative row. -/
def exTpaDebit : DebitRow := ⟨"Acme", 15, some "TPA admin fee", 100⟩

/-- Witness for C3: removing the TPA-marked debit row from the example's
debit table changes nothing in the output of `calculate_mlr`. -/
theorem debit_tpa_excluded_witness :
    hasTpa exTpaDebit.Description = true ∧
    calculate_mlr exPA exGC [] [] ([] ++ exTpaDebit :: exDEBIT) =
      calculate_mlr exPA exGC [] [] ([] ++ exDEBIT) := by
  have h : hasTpa exTpaDebit.Description = true := by decide
  exact ⟨h, debit_tpa_excluded.2 exPA exGC [] [] [] exDEBIT exTpaDebit h⟩

/-- A debit row with a null description inside the example window. -/
def exNullDebit : DebitRow := ⟨"Acme", 15, none, 500⟩

/-- Witness for C10: the null-description debit row survives the TPA
filter and contributes its full amount of 500. -/
theorem debit_null_description_kept_witness :
    exNullDebit.Description = none ∧
    currentDebit [exNullDebit] = [exNullDebit] ∧
    debitTotal (debitJoined [exNullDebit] exGC) "Acme" = 500 := by
  have h := debit_null_description_kept exGC [] exNullDebit rfl
  refine ⟨rfl, by simpa [currentDebit] using h.1, ?_⟩
  norm_num [exNullDebit, exGC, debitJoined, currentDebit, hasTpa, debitTotal]

/-- Leading and trailing whitespace removed from a character list (helper
for Python's `str.strip()`). -/
def trimChars (l : List Char) : List Char :=
  ((l.dropWhile Char.isWhitespace).reverse.dropWhile Char.isWhitespace).reverse

/-- Embedding of Python's `str.strip()`. -/
def strip (s : String) : String := String.mk (trimChars s.toList)

/-- Embedding of Python's `str.lower()` (character-wise lower-casing). -/
def lowerStr (s : String) : String := String.mk (s.toList.map Char.toLower)

/-- Embedding of `''.join(filter(str.isdigit, phone))` (MEDITEST.py line
418): the digit characters of the string, in order. -/
def clean_phone (s : String) : List Char := s.toList.filter Char.isDigit

/-- Row of the members dataframe of `analyze_incomplete_contacts`
(MEDITEST.py): the four phone and four email columns, each nullable. -/
structure MemberRow where
  phone1 : Option String
  phone2 : Option String
  phone3 : Option String
  phone4 : Option String
  email1 : Option String
  email2 : Option String
  email3 : Option String
  email4 : Option String
deriving Repr, DecidableEq

/-- Embedding of the value-collection loop shared by `is_phone_complete`
and `is_email_complete` (MEDITEST.py lines 405-411 and 432-438): a null
cell becomes "", the cell is stripped, and empty or "nan" values are
skipped. -/
def collectVals (vals : List (Option String)) : List String :=
  vals.filterMap (fun o =>
    match o with
    | none => none
    | some s =>
      if strip s == "" || strip s == "nan" then none else some (strip s))

/-- The per-value phone test of `is_phone_complete` (MEDITEST.py lines
416-420): the cleaned digits have length exactly 11 and do not start with
"080000". -/
def validPhone (phone : String) : Bool :=
  (clean_phone phone).length == 11 && !(leadMatch (clean_phone phone) ("080000".toList))

/-- Embedding of `is_phone_complete` (MEDITEST.py lines 404-423), boolean
component: true when at least one collected phone value is valid. -/
def is_phone_complete (row : MemberRow) : Bool :=
  (collectVals [row.phone1, row.phone2, row.phone3, row.phone4]).any validPhone

/-- The per-value email test of `is_email_complete` (MEDITEST.py lines
441-452): the value is skipped when its lower-casing is "null",
"default@gmail.com" or "test@gmail.com", or when it has no "@". -/
def validEmail (email : String) : Bool :=
  !(lowerStr email == "null" || lowerStr email == "default@gmail.com" ||
    lowerStr email == "test@gmail.com" || !(email.toList.contains '@'))

/-- Embedding of `is_email_complete` (MEDITEST.py lines 431-457), boolean
component: true when at least one collected email value is valid. -/
def is_email_complete (row : MemberRow) : Bool :=
  (collectVals [row.email1, row.email2, row.email3, row.email4]).any validEmail

/-- The phone-completeness criterion in the spec's words, as a predicate
on one (nullable) phone field: after removing all non-digit characters,
exactly 11 digits remain and they do not start with "080000". -/
def specPhoneOk (o : Option String) : Bool :=
  match o with
  | none => false
  | some s => (clean_phone s).length == 11 && !(leadMatch (clean_phone s) ("080000".toList))

/-- The email-completeness criterion in the spec's words, as a predicate
on one (nullable) email field: the (whitespace-stripped) value contains
"@" and is not, case-insensitively, one of the placeholders "null",
"default@gmail.com" and "test@gmail.com". -/
def specEmailOk (o : Option String) : Bool :=
  match o with
  | none => false
  | some s =>
    (strip s).toList.contains '@' &&
    !(lowerStr (strip s) == "null" || lowerStr (strip s) == "default@gmail.com" ||
      lowerStr (strip s) == "test@gmail.com")

/-- Helper: one step of `collectVals` on a non-null cell. -/
theorem collectVals_cons_some (s : String) (t : List (Option String)) :
    collectVals (some s :: t) =
      if strip s = "" ∨ strip s = "nan" then collectVals t
      else strip s :: collectVals t := by
  simp only [collectVals, List.filterMap_cons]
  by_cases he : strip s = "" <;> by_cases hn : strip s = "nan" <;> simp [he, hn]

/-- Helper: `any` over the collected values equals `any` of the per-field
test on the stripped fields, for a test that rejects "" and "nan". -/
theorem collectVals_any (valid : String → Bool) (h1 : valid "" = false)
    (h2 : valid "nan" = false) (l : List (Option String)) :
    (collectVals l).any valid =
      l.any (fun o => match o with | none => false | some s => valid (strip s)) := by
  induction l with
  | nil => rfl
  | cons o t ih =>
    cases o with
    | none => simpa [collectVals] using ih
    | some s =>
      rw [collectVals_cons_some]
      by_cases he : strip s = ""
      · have hval : valid (strip s) = false := by rw [he]; exact h1
        rw [if_pos (Or.inl he)]
        simp only [List.any_cons, ih, hval, Bool.false_or]
      · by_cases hn : strip s = "nan"
        · have hval : valid (strip s) = false := by rw [hn]; exact h2
          rw [if_pos (Or.inr hn)]
          simp only [List.any_cons, ih, hval, Bool.false_or]
        · rw [if_neg (not_or.mpr ⟨he, hn⟩)]
          simp only [List.any_cons, ih]

/-- Helper: dropping a prefix of characters rejected by `p` does not
change a `p`-filter. -/
theorem filter_dropWhile_of_imp {p q : Char → Bool}
    (h : ∀ c, q c = true → p c = false) :
    ∀ l : List Char, (l.dropWhile q).filter p = l.filter p := by
  intro l
  induction l with
  | nil => rfl
  | cons a t ih =>
    by_cases ha : q a = true
    · rw [List.dropWhile_cons_of_pos ha, ih, List.filter_cons_of_neg]
      simp [h a ha]
    · rw [List.dropWhile_cons_of_neg ha]

/-- Helper: whitespace characters are not digits. -/
theorem ws_not_digit : ∀ c : Char, c.isWhitespace = true → c.isDigit = false := by
  intro c hc
  simp [Char.isWhitespace] at hc
  rcases hc with ((h | h) | h) | h <;> (subst h; decide)

/-- Helper: stripping whitespace does not change the digit characters of a
string. -/
theorem clean_phone_strip (s : String) : clean_phone (strip s) = clean_phone s := by
  show (trimChars s.toList).filter Char.isDigit = s.toList.filter Char.isDigit
  unfold trimChars
  rw [List.filter_reverse, filter_dropWhile_of_imp ws_not_digit, List.filter_reverse,
    List.reverse_reverse, filter_dropWhile_of_imp ws_not_digit]

/-- C6. `is_phone_complete` holds exactly when one of the four phone
fields, after removing all non-digit characters, has exactly 11 digits not
starting with the placeholder prefix "080000"; the member whose phone
values are "08000012345", "", "", "" is phone-incomplete, and a member
whose only phone value is "08012345678" is phone-complete. -/
theorem phone_completeness_rule :
    (∀ row : MemberRow, is_phone_complete row =
      [row.phone1, row.phone2, row.phone3, row.phone4].any specPhoneOk) ∧
    is_phone_complete
      ⟨some "08000012345", some "", some "", some "", none, none, none, none⟩ = false ∧
    is_phone_complete
      ⟨some "08012345678", none, none, none, none, none, none, none⟩ = true := by
  refine ⟨?_, by decide, by decide⟩
  intro row
  rw [is_phone_complete, collectVals_any validPhone (by decide) (by decide)]
  congr 1
  funext o
  cases o with
  | none => rfl
  | some s => simp [specPhoneOk, validPhone, clean_phone_strip]

/-- Helper: boolean shape of the email test. -/
theorem bool_at_notor (a b c d : Bool) :
    (!(a || b || c || !d)) = (d && !(a || b || c)) := by
  revert a b c d
  decide

/-- C7. `is_email_complete` holds exactly when one of the four email
fields (whitespace-stripped) contains "@" and is not, case-insensitively,
one of the placeholders "null", "default@gmail.com", "test@gmail.com"; a
member whose only email is "test@gmail.com" is email-incomplete, and one
whose only email is "a@b.com" is email-complete. -/
theorem email_completeness_rule :
    (∀ row : MemberRow, is_email_complete row =
      [row.email1, row.email2, row.email3, row.email4].any specEmailOk) ∧
    is_email_complete
      ⟨none, none, none, none, some "test@gmail.com", none, none, none⟩ = false ∧
    is_email_complete
      ⟨none, none, none, none, some "a@b.com", none, none, none⟩ = true := by
  refine ⟨?_, by decide, by decide⟩
  intro row
  rw [is_email_complete, collectVals_any validEmail (by decide) (by decide)]
  congr 1
  funext o
  cases o with
  | none => rfl
  | some s =>
    show validEmail (strip s) = specEmailOk (some s)
    rw [validEmail, specEmailOk]
    exact bool_at_notor _ _ _ _

/-- Row of the ACTIVE_ENROLLEE dataframe of `calculate_retail_mlr`
(MLR.py) after its casts: `legacycode` (Utf8), `memberid` (Int64), plus
the member's individual coverage window. -/
structure EnrolleeRow where
  legacycode : String
  memberid : Int
  effectivedate : Int
  terminationdate : Int
deriving Repr, DecidableEq

/-- Row of the M_PLAN dataframe after its casts: `memberid`, `planid`
(Int64) and `iscurrent` (Utf8). -/
structure MPlanRow where
  memberid : Int
  planid : Int
  iscurrent : String
deriving Repr, DecidableEq

/-- Row of the G_PLAN dataframe after its casts (the fields the function
reads: ids, prices and the two member counts used for the premium). -/
structure GPlanRow where
  planid : Int
  groupid : Int
  individualprice : ℚ
  familyprice : ℚ
  countofindividual : ℚ
  countoffamily : ℚ
deriving Repr, DecidableEq

/-- Row of the GROUPS dataframe of `calculate_retail_mlr` after its casts
(`groupid` is Int64 here, unlike in `calculate_mlr`). -/
structure RGroupRow where
  groupid : Int
  groupname : String
deriving Repr, DecidableEq

/-- Row of the PLAN dataframe: `planid` and `planname`. -/
structure PlanRow where
  planid : Int
  planname : String
deriving Repr, DecidableEq

/-- Row of the PA dataframe of `calculate_retail_mlr` after its casts:
`groupname`, `IID` (Utf8), `requestdate` (datetime), `granted` (float). -/
structure RetailPARow where
  groupname : String
  IID : String
  requestdate : Int
  granted : ℚ
deriving Repr, DecidableEq

/-- Embedding of `M_PLANN = M_PLAN.filter(iscurrent == "true")`. -/
def mplanCurrent (M_PLAN : List MPlanRow) : List MPlanRow :=
  M_PLAN.filter (fun m => m.iscurrent == "true")

/-- Row of the mutated ACTIVE_ENROLLEE dataframe after its left join with
`M_PLANN` on `memberid` (MLR.py lines 597-601): the enrollee columns plus
a nullable `planid`. -/
structure EnrolleePlanRow where
  legacycode : String
  memberid : Int
  effectivedate : Int
  terminationdate : Int
  planid : Option Int
deriving Repr, DecidableEq

/-- Embedding of the ACTIVE_ENROLLEE mutation (left join with the current
member plans): an enrollee with no current plan keeps one row with a null
`planid`; one with several current plans is duplicated. -/
def enrolleeWithPlan (enr : List EnrolleeRow) (M_PLAN : List MPlanRow) :
    List EnrolleePlanRow :=
  enr.flatMap (fun a =>
    let ms := (mplanCurrent M_PLAN).filter (fun m => m.memberid == a.memberid)
    if ms.isEmpty then
      [⟨a.legacycode, a.memberid, a.effectivedate, a.terminationdate, none⟩]
    else
      ms.map (fun m =>
        ⟨a.legacycode, a.memberid, a.effectivedate, a.terminationdate, some m.planid⟩))

/-- The nullable `memberid` values a PA row picks up in the left join
`PA.join(ACTIVE_ENROLLEE.select([legacycode, memberid]), IID=legacycode)`
(MLR.py lines 631-637). -/
def paMemberIds (enrP : List EnrolleePlanRow) (p : RetailPARow) : List (Option Int) :=
  let ms := enrP.filter (fun a => a.legacycode == p.IID)
  if ms.isEmpty then [none] else ms.map (fun a => some a.memberid)

/-- The nullable `planid` values picked up in the left join with `M_PLANN`
on `memberid` (MLR.py lines 640-644); a null key matches nothing. -/
def paPlanIds (mcur : List MPlanRow) (mid : Option Int) : List (Option Int) :=
  match mid with
  | none => [none]
  | some m =>
    let ms := mcur.filter (fun x => x.memberid == m)
    if ms.isEmpty then [none] else ms.map (fun x => some x.planid)

/-- The nullable `planname` values picked up in a left join with PLAN on
`planid`; a null key matches nothing. -/
def planNamesOf (plan : List PlanRow) (pid : Option Int) : List (Option String) :=
  match pid with
  | none => [none]
  | some i =>
    let ms := plan.filter (fun x => x.planid == i)
    if ms.isEmpty then [none] else ms.map (fun x => some x.planname)

/-- The nullable coverage windows picked up in the left join of PAA with
the mutated ACTIVE_ENROLLEE on `IID = legacycode` (MLR.py lines 661-667). -/
def datesRows (enrP : List EnrolleePlanRow) (iid : String) :
    List (Option Int × Option Int) :=
  let ms := enrP.filter (fun a => a.legacycode == iid)
  if ms.isEmpty then [(none, none)]
  else ms.map (fun a => (some a.effectivedate, some a.terminationdate))

/-- Row of `PA_M` (PA left-joined with the enrollee member ids). -/
structure PAMRow where
  p : RetailPARow
  memberid : Option Int
deriving Repr, DecidableEq

/-- Row of `PA_MP` (`PA_M` left-joined with the current member plans). -/
structure PAMPRow where
  p : RetailPARow
  memberid : Option Int
  planid : Option Int
deriving Repr, DecidableEq

/-- Row of `PAA` after the PLAN join (nullable `planname` added). -/
structure PAAPlanRow where
  p : RetailPARow
  memberid : Option Int
  planid : Option Int
  planname : Option String
deriving Repr, DecidableEq

/-- Row of `PAA` after the coverage-dates join: the dataframe the
per-member date filter and the final grouping run on. -/
structure PAARow where
  p : RetailPARow
  memberid : Option Int
  planid : Option Int
  planname : Option String
  effectivedate : Option Int
  terminationdate : Option Int
deriving Repr, DecidableEq

/-- Embedding of `PA_M` (MLR.py lines 631-637). -/
def pa_M (PA : List RetailPARow) (enrP : List EnrolleePlanRow) : List PAMRow :=
  PA.flatMap (fun p => (paMemberIds enrP p).map (fun mid => ⟨p, mid⟩))

/-- Embedding of `PA_MP` (MLR.py lines 640-644). -/
def pa_MP (ps : List PAMRow) (mcur : List MPlanRow) : List PAMPRow :=
  ps.flatMap (fun q => (paPlanIds mcur q.memberid).map (fun pid => ⟨q.p, q.memberid, pid⟩))

/-- Embedding of the "family scheme" filter on PAA (MLR.py lines 647-649):
keeps rows whose PA `groupname` lower-cases to "family scheme". -/
def paaGroupFiltered (ps : List PAMPRow) : List PAMPRow :=
  ps.filter (fun q => lowerStr q.p.groupname == "family scheme")

/-- Embedding of the PLAN join on PAA (MLR.py lines 652-657). -/
def paaWithPlan (ps : List PAMPRow) (plan : List PlanRow) : List PAAPlanRow :=
  ps.flatMap (fun q =>
    (planNamesOf plan q.planid).map (fun pn => ⟨q.p, q.memberid, q.planid, pn⟩))

/-- Embedding of the coverage-dates join on PAA (MLR.py lines 661-667). -/
def paaWithDates (ps : List PAAPlanRow) (enrP : List EnrolleePlanRow) : List PAARow :=
  ps.flatMap (fun q =>
    (datesRows enrP q.p.IID).map (fun dt =>
      ⟨q.p, q.memberid, q.planid, q.planname, dt.1, dt.2⟩))

/-- The per-member date filter (MLR.py lines 673-676): the comparison of
`requestdate` with a null bound is null, which the filter drops. -/
def dateOk (r : PAARow) : Bool :=
  match r.effectivedate, r.terminationdate with
  | some e, some t => decide (e ≤ r.p.requestdate) && decide (r.p.requestdate ≤ t)
  | _, _ => false

/-- Embedding of `filtered_PAA` (MLR.py lines 673-676): the whole PAA
pipeline, then the per-member coverage-window filter. -/
def filtered_PAA (PA : List RetailPARow) (enr : List EnrolleeRow)
    (M_PLAN : List MPlanRow) (PLAN : List PlanRow) : List PAARow :=
  (paaWithDates
    (paaWithPlan
      (paaGroupFiltered (pa_MP (pa_M PA (enrolleeWithPlan enr M_PLAN)) (mplanCurrent M_PLAN)))
      PLAN)
    (enrolleeWithPlan enr M_PLAN)).filter dateOk

/-- The `total_cost` aggregate of `grouped_PAA` (MLR.py lines 679-681):
sum of `granted` over the filtered PAA rows of one (IID, planname) key. -/
def retail_total_cost (PA : List RetailPARow) (enr : List EnrolleeRow)
    (M_PLAN : List MPlanRow) (PLAN : List PlanRow) (iid : String)
    (pn : Option String) : ℚ :=
  (((filtered_PAA PA enr M_PLAN PLAN).filter
      (fun r => decide (r.p.IID = iid) && decide (r.planname = pn))).map
    (fun r => r.p.granted)).sum

/-- The distinct (IID, planname) keys of the final grouping. -/
def retailKeys (l : List PAARow) : List (String × Option String) :=
  (l.map (fun r => (r.p.IID, r.planname))).eraseDups

/-- Embedding of `result_df` (MLR.py lines 679-685): one row per
(IID, planname) key with the summed cost. -/
def result_df (PA : List RetailPARow) (enr : List EnrolleeRow)
    (M_PLAN : List MPlanRow) (PLAN : List PlanRow) :
    List (String × Option String × ℚ) :=
  (retailKeys (filtered_PAA PA enr M_PLAN PLAN)).map
    (fun k => (k.1, k.2, retail_total_cost PA enr M_PLAN PLAN k.1 k.2))

/-- Embedding of `G_PLANN` (MLR.py lines 580-589): G_PLAN left-joined with
GROUPS on `groupid`, then filtered to rows whose group name lower-cases to
"family scheme" (a null name is dropped by the filter). -/
def g_plann (G_PLAN : List GPlanRow) (GROUPS : List RGroupRow) :
    List (GPlanRow × Option String) :=
  (G_PLAN.flatMap (fun g =>
    let ms := GROUPS.filter (fun x => x.groupid == g.groupid)
    if ms.isEmpty then [(g, none)] else ms.map (fun x => (g, some x.groupname)))).filter
    (fun q => match q.2 with
      | some n => lowerStr n == "family scheme"
      | none => false)

/-- Embedding of `F_GPLAN` (MLR.py lines 610-617): `G_PLANN` left-joined
with PLAN on `planid` to pick up the nullable `planname`. -/
def f_gplan (G_PLAN : List GPlanRow) (GROUPS : List RGroupRow)
    (PLAN : List PlanRow) : List (GPlanRow × Option String × Option String) :=
  (g_plann G_PLAN GROUPS).flatMap (fun q =>
    (planNamesOf PLAN (some q.1.planid)).map (fun pn => (q.1, q.2, pn)))

/-- The per-row `premium` column (MLR.py lines 620-622):
`individualprice * countofindividual + countoffamily * familyprice`. -/
def premiumOf (g : GPlanRow) : ℚ :=
  g.individualprice * g.countofindividual + g.countoffamily * g.familyprice

/-- Embedding of `total_retail_premium_by_plan` (MLR.py lines 624-627):
the premium summed per (nullable) plan name. -/
def total_retail_premium_by_plan (G_PLAN : List GPlanRow) (GROUPS : List RGroupRow)
    (PLAN : List PlanRow) : List (Option String × ℚ) :=
  ((f_gplan G_PLAN GROUPS PLAN).map (fun q => q.2.2)).eraseDups.map (fun pn =>
    (pn, (((f_gplan G_PLAN GROUPS PLAN).filter (fun q => decide (q.2.2 = pn))).map
      (fun q => premiumOf q.1)).sum))

/-- Embedding of `total_cost_by_plan` (MLR.py lines 688-693): the result
rows regrouped by plan name, or empty when there are no result rows. -/
def total_cost_by_plan (PA : List RetailPARow) (enr : List EnrolleeRow)
    (M_PLAN : List MPlanRow) (PLAN : List PlanRow) : List (Option String × ℚ) :=
  if (result_df PA enr M_PLAN PLAN).isEmpty then []
  else
    ((result_df PA enr M_PLAN PLAN).map (fun r => r.2.1)).eraseDups.map (fun pn =>
      (pn, (((result_df PA enr M_PLAN PLAN).filter (fun r => decide (r.2.1 = pn))).map
        (fun r => r.2.2)).sum))

/-- Embedding of `merged_plan_df` (MLR.py lines 696-710): when both sides
are non-empty, the premium table left-joined with the cost table on the
plan name (whose keys are unique by construction); otherwise empty. -/
def merged_plan_df (PA : List RetailPARow) (enr : List EnrolleeRow)
    (M_PLAN : List MPlanRow) (G_PLAN : List GPlanRow) (GROUPS : List RGroupRow)
    (PLAN : List PlanRow) : List (Option String × ℚ × Option ℚ) :=
  let prem := total_retail_premium_by_plan G_PLAN GROUPS PLAN
  let cost := total_cost_by_plan PA enr M_PLAN PLAN
  if prem.isEmpty || cost.isEmpty then []
  else prem.map (fun q =>
    (q.1, q.2, (cost.find? (fun c => decide (c.1 = q.1))).map (fun c => c.2)))

/-- Embedding of the body of `calculate_retail_mlr` (MLR.py lines 541-710):
the pair `(result_df, merged_plan_df)`.  (The intermediate `ACTIVE_RETAIL`
of the source is computed but never used afterwards, so it is omitted.) -/
def calculate_retail_mlr (PA : List RetailPARow) (ACTIVE_ENROLLEE : List EnrolleeRow)
    (M_PLAN : List MPlanRow) (G_PLAN : List GPlanRow) (GROUPS : List RGroupRow)
    (PLAN : List PlanRow) :
    List (String × Option String × ℚ) × List (Option String × ℚ × Option ℚ) :=
  (result_df PA ACTIVE_ENROLLEE M_PLAN PLAN,
   merged_plan_df PA ACTIVE_ENROLLEE M_PLAN G_PLAN GROUPS PLAN)

/-- Helper: every row of the mutated ACTIVE_ENROLLEE keeps the legacy code
and the coverage window of one source enrollee row. -/
theorem mem_enrolleeWithPlan {enr : List EnrolleeRow} {M_PLAN : List MPlanRow}
    {ep : EnrolleePlanRow} (h : ep ∈ enrolleeWithPlan enr M_PLAN) :
    ∃ a ∈ enr, ep.legacycode = a.legacycode ∧ ep.effectivedate = a.effectivedate ∧
      ep.terminationdate = a.terminationdate := by
  rcases List.mem_flatMap.1 h with ⟨a, ha, hin⟩
  refine ⟨a, ha, ?_⟩
  by_cases hempty :
      ((mplanCurrent M_PLAN).filter (fun m => m.memberid == a.memberid)).isEmpty = true
  · simp only [hempty, if_pos] at hin
    rcases List.mem_singleton.1 hin with rfl
    exact ⟨rfl, rfl, rfl⟩
  · simp only [hempty] at hin
    rw [if_neg (by simp)] at hin
    rcases List.mem_map.1 hin with ⟨m, _, rfl⟩
    exact ⟨rfl, rfl, rfl⟩

/-- Helper: a coverage window picked up for an `IID` is either the null
pair or the window of an enrollee row carrying that legacy code. -/
theorem mem_datesRows {enr : List EnrolleeRow} {M_PLAN : List MPlanRow} {iid : String}
    {dt : Option Int × Option Int}
    (h : dt ∈ datesRows (enrolleeWithPlan enr M_PLAN) iid) :
    dt = (none, none) ∨ ∃ a ∈ enr, a.legacycode = iid ∧
      dt = (some a.effectivedate, some a.terminationdate) := by
  unfold datesRows at h
  by_cases hempty :
      ((enrolleeWithPlan enr M_PLAN).filter (fun a => a.legacycode == iid)).isEmpty = true
  · simp only [hempty, if_pos] at h
    exact Or.inl (List.mem_singleton.1 h)
  · simp only [hempty] at h
    rw [if_neg (by simp)] at h
    rcases List.mem_map.1 h with ⟨ep, hep, rfl⟩
    rcases List.mem_filter.1 hep with ⟨hepmem, hepcode⟩
    rcases mem_enrolleeWithPlan hepmem with ⟨a, ha, hcode, heff, hterm⟩
    refine Or.inr ⟨a, ha, ?_, by rw [heff, hterm]⟩
    rw [← hcode]
    exact beq_iff_eq.1 hepcode

/-- Helper: every row of the dates join comes from a PAA row and a window
picked up for that row's `IID`. -/
theorem mem_paaWithDates {ps : List PAAPlanRow} {enrP : List EnrolleePlanRow}
    {r : PAARow} (h : r ∈ paaWithDates ps enrP) :
    ∃ q ∈ ps, ∃ dt ∈ datesRows enrP q.p.IID,
      r = ⟨q.p, q.memberid, q.planid, q.planname, dt.1, dt.2⟩ := by
  rcases List.mem_flatMap.1 h with ⟨q, hq, hin⟩
  rcases List.mem_map.1 hin with ⟨dt, hdt, rfl⟩
  exact ⟨q, hq, dt, hdt, rfl⟩

/-- Helper: the PLAN join does not change the PA fields of a row. -/
theorem mem_paaWithPlan {ps : List PAMPRow} {plan : List PlanRow} {q : PAAPlanRow}
    (h : q ∈ paaWithPlan ps plan) : ∃ q' ∈ ps, q.p = q'.p := by
  rcases List.mem_flatMap.1 h with ⟨q', hq', hin⟩
  rcases List.mem_map.1 hin with ⟨pn, _, rfl⟩
  exact ⟨q', hq', rfl⟩

/-- Helper: the member-plan join does not change the PA fields of a row. -/
theorem mem_pa_MP {ps : List PAMRow} {mcur : List MPlanRow} {q : PAMPRow}
    (h : q ∈ pa_MP ps mcur) : ∃ q' ∈ ps, q.p = q'.p := by
  rcases List.mem_flatMap.1 h with ⟨q', hq', hin⟩
  rcases List.mem_map.1 hin with ⟨pid, _, rfl⟩
  exact ⟨q', hq', rfl⟩

/-- Helper: every PAA row of the full pipeline carries one of the input PA
rows in its `p` field. -/
theorem paa_p_mem {PA : List RetailPARow} {enrP : List EnrolleePlanRow}
    {mcur : List MPlanRow} {plan : List PlanRow} {r : PAARow}
    (h : r ∈ paaWithDates (paaWithPlan (paaGroupFiltered (pa_MP (pa_M PA enrP) mcur))
      plan) enrP) :
    r.p ∈ PA ∧ ∃ dt ∈ datesRows enrP r.p.IID,
      r.effectivedate = dt.1 ∧ r.terminationdate = dt.2 := by
  rcases mem_paaWithDates h with ⟨q, hq, dt, hdt, rfl⟩
  rcases mem_paaWithPlan hq with ⟨q', hq', hpq⟩
  have hq'mem : q' ∈ pa_MP (pa_M PA enrP) mcur := List.mem_filter.1 hq' |>.1
  rcases mem_pa_MP hq'mem with ⟨q'', hq'', hpq'⟩
  rcases List.mem_flatMap.1 hq'' with ⟨p0, hp0, hin⟩
  rcases List.mem_map.1 hin with ⟨mid, _, rfl⟩
  have hp : q.p = p0 := by rw [hpq, hpq']
  constructor
  · show q.p ∈ PA
    rw [hp]
    exact hp0
  · exact ⟨dt, hdt, rfl, rfl⟩

/-- Helper: `pa_MP` distributes over appending. -/
theorem pa_MP_append (a b : List PAMRow) (m : List MPlanRow) :
    pa_MP (a ++ b) m = pa_MP a m ++ pa_MP b m := by
  simp [pa_MP]

/-- Helper: the group filter distributes over appending. -/
theorem paaGroupFiltered_append (a b : List PAMPRow) :
    paaGroupFiltered (a ++ b) = paaGroupFiltered a ++ paaGroupFiltered b := by
  simp [paaGroupFiltered]

/-- Helper: the PLAN join distributes over appending. -/
theorem paaWithPlan_append (a b : List PAMPRow) (plan : List PlanRow) :
    paaWithPlan (a ++ b) plan = paaWithPlan a plan ++ paaWithPlan b plan := by
  simp [paaWithPlan]

/-- Helper: the dates join distributes over appending. -/
theorem paaWithDates_append (a b : List PAAPlanRow) (enrP : List EnrolleePlanRow) :
    paaWithDates (a ++ b) enrP = paaWithDates a enrP ++ paaWithDates b enrP := by
  simp [paaWithDates]

/-- C9. Every row surviving the per-member date filter of
`calculate_retail_mlr` joins a PA row to the coverage window
[effectivedate, terminationdate] (inclusive) of an enrollee carrying its
`IID`, with the request date inside that window; and a PA row whose
request date lies outside the coverage window of every enrollee with its
`IID` contributes nothing: dropping it changes neither the filtered rows
nor any (IID, planname) `total_cost`, nor `result_df`. -/
theorem retail_member_window_filter :
    (∀ (PA : List RetailPARow) (enr : List EnrolleeRow) (M_PLAN : List MPlanRow)
        (PLAN : List PlanRow) (r : PAARow), r ∈ filtered_PAA PA enr M_PLAN PLAN →
        ∃ a ∈ enr, a.legacycode = r.p.IID ∧ r.effectivedate = some a.effectivedate ∧
          r.terminationdate = some a.terminationdate ∧
          a.effectivedate ≤ r.p.requestdate ∧ r.p.requestdate ≤ a.terminationdate) ∧
    (∀ (PA : List RetailPARow) (enr : List EnrolleeRow) (M_PLAN : List MPlanRow)
        (PLAN : List PlanRow) (p : RetailPARow),
        (∀ a ∈ enr, a.legacycode = p.IID →
          ¬(a.effectivedate ≤ p.requestdate ∧ p.requestdate ≤ a.terminationdate)) →
        filtered_PAA (p :: PA) enr M_PLAN PLAN = filtered_PAA PA enr M_PLAN PLAN ∧
        (∀ (iid : String) (pn : Option String),
          retail_total_cost (p :: PA) enr M_PLAN PLAN iid pn =
            retail_total_cost PA enr M_PLAN PLAN iid pn) ∧
        result_df (p :: PA) enr M_PLAN PLAN = result_df PA enr M_PLAN PLAN) := by
  constructor
  · intro PA enr M_PLAN PLAN r hr
    rcases List.mem_filter.1 hr with ⟨hmem, hok⟩
    rcases paa_p_mem hmem with ⟨_, dt, hdt, heff, hterm⟩
    rcases mem_datesRows hdt with hnn | ⟨a, ha, hcode, hsome⟩
    · have heff' : r.effectivedate = none := by rw [heff, hnn]
      rw [dateOk, heff'] at hok
      cases hok
    · have heff' : r.effectivedate = some a.effectivedate := by rw [heff, hsome]
      have hterm' : r.terminationdate = some a.terminationdate := by rw [hterm, hsome]
      rw [dateOk, heff', hterm'] at hok
      simp only [Bool.and_eq_true, decide_eq_true_eq] at hok
      exact ⟨a, ha, hcode, heff', hterm', hok.1, hok.2⟩
  · intro PA enr M_PLAN PLAN p h
    have key : filtered_PAA (p :: PA) enr M_PLAN PLAN = filtered_PAA PA enr M_PLAN PLAN := by
      have hsplit : pa_M (p :: PA) (enrolleeWithPlan enr M_PLAN) =
          pa_M [p] (enrolleeWithPlan enr M_PLAN) ++ pa_M PA (enrolleeWithPlan enr M_PLAN) := by
        simp [pa_M]
      have hnil : ∀ r ∈ paaWithDates (paaWithPlan (paaGroupFiltered (pa_MP
          (pa_M [p] (enrolleeWithPlan enr M_PLAN)) (mplanCurrent M_PLAN))) PLAN)
          (enrolleeWithPlan enr M_PLAN), dateOk r = false := by
        intro r hrmem
        rcases paa_p_mem hrmem with ⟨hpmem, dt, hdt, heff, hterm⟩
        have hp : r.p = p := List.mem_singleton.1 hpmem
        rcases mem_datesRows hdt with hnn | ⟨a, ha, hcode, hsome⟩
        · have heff' : r.effectivedate = none := by rw [heff, hnn]
          rw [dateOk, heff']
        · have heff' : r.effectivedate = some a.effectivedate := by rw [heff, hsome]
          have hterm' : r.terminationdate = some a.terminationdate := by rw [hterm, hsome]
          have hwin := h a ha (by rw [hcode, hp])
          rw [dateOk, heff', hterm', hp]
          by_cases h1 : a.effectivedate ≤ p.requestdate
          · have h2 : ¬p.requestdate ≤ a.terminationdate := fun h2 => hwin ⟨h1, h2⟩
            simp [h1, h2]
          · simp [h1]
      unfold filtered_PAA
      rw [hsplit, pa_MP_append, paaGroupFiltered_append, paaWithPlan_append,
        paaWithDates_append, List.filter_append,
        List.filter_eq_nil_iff.2 (fun r hr => by simp [hnil r hr]), List.nil_append]
    refine ⟨key, fun iid pn => ?_, ?_⟩
    · unfold retail_total_cost
      rw [key]
    · unfold result_df retail_total_cost
      rw [key]

/-- A family-scheme PA row whose request date 100 falls outside its
member's coverage window 0..50. -/
def exRetailPA : RetailPARow := ⟨"FAMILY SCHEME", "L1", 100, 250⟩

/-- The enrollee of the retail example: legacy code "L1", window 0..50. -/
def exEnrollee : List EnrolleeRow := [⟨"L1", 1, 0, 50⟩]

/-- The member-plan row of the retail example. -/
def exMPlan : List MPlanRow := [⟨1, 9, "true"⟩]

/-- The plan row of the retail example. -/
def exPlan : List PlanRow := [⟨9, "Bronze"⟩]

/-- Witness for C9: the out-of-window PA row contributes nothing. -/
theorem retail_member_window_filter_witness :
    (∀ a ∈ exEnrollee, a.legacycode = exRetailPA.IID →
      ¬(a.effectivedate ≤ exRetailPA.requestdate ∧
        exRetailPA.requestdate ≤ a.terminationdate)) ∧
    filtered_PAA [exRetailPA] exEnrollee exMPlan exPlan =
      filtered_PAA [] exEnrollee exMPlan exPlan ∧
    retail_total_cost [exRetailPA] exEnrollee exMPlan exPlan "L1" (some "Bronze") =
      retail_total_cost [] exEnrollee exMPlan exPlan "L1" (some "Bronze") := by
  have h : ∀ a ∈ exEnrollee, a.legacycode = exRetailPA.IID →
      ¬(a.effectivedate ≤ exRetailPA.requestdate ∧
        exRetailPA.requestdate ≤ a.terminationdate) := by
    intro a ha
    simp only [exEnrollee, List.mem_singleton] at ha
    subst ha
    intro _
    decide
  have k := retail_member_window_filter.2 [] exEnrollee exMPlan exPlan exRetailPA h
  exact ⟨h, k.1, k.2.1 "L1" (some "Bronze")⟩

/-- Raw CLAIMS row before the strict `approvedamount` cast of
`calculate_mlr` (MLR.py line 439): `none` stands for a value on which the
strict cast to Float64 raises. -/
structure ClaimRowRaw where
  nhisgroupid : String
  encounterdatefrom : Int
  approvedamount : Option ℚ
deriving Repr, DecidableEq

/-- The strict cast of one raw CLAIMS row: raises (returns `Except.error`)
on an uncastable amount. -/
def castClaimRow (r : ClaimRowRaw) : Except String ClaimRow :=
  match r.approvedamount with
  | some a => Except.ok ⟨r.nhisgroupid, r.encounterdatefrom, a⟩
  | none => Except.error "conversion to f64 failed"

/-- The strict cast of the CLAIMS dataframe. -/
def castClaims (rs : List ClaimRowRaw) : Except String (List ClaimRow) :=
  rs.mapM castClaimRow

/-- The body of `calculate_mlr` as a fallible computation over raw CLAIMS
input: whatever the strict cast raises propagates as `Except.error`. -/
def calculate_mlr_body (PA : List PARow) (GROUP_CONTRACT : List GroupContractRow)
    (CLAIMS : List ClaimRowRaw) (GROUPS : List GroupRow) (DEBIT : List DebitRow) :
    Except String (List PAMlrRow × List ClaimsMlrRow) := do
  let cl ← castClaims CLAIMS
  pure (calculate_mlr PA GROUP_CONTRACT cl GROUPS DEBIT)

/-- Embedding of the `try/except` wrapper of `calculate_mlr` (MLR.py lines
419 and 537-539): any exception of the body is caught and a pair of empty
dataframes is returned. -/
def calculate_mlr_caught (PA : List PARow) (GROUP_CONTRACT : List GroupContractRow)
    (CLAIMS : List ClaimRowRaw) (GROUPS : List GroupRow) (DEBIT : List DebitRow) :
    List PAMlrRow × List ClaimsMlrRow :=
  match calculate_mlr_body PA GROUP_CONTRACT CLAIMS GROUPS DEBIT with
  | Except.ok r => r
  | Except.error _ => ([], [])

/-- Raw retail PA row before the strict `granted` cast of
`calculate_retail_mlr` (MLR.py line 567). -/
structure RetailPARowRaw where
  groupname : String
  IID : String
  requestdate : Int
  granted : Option ℚ
deriving Repr, DecidableEq

/-- The strict cast of one raw retail PA row. -/
def castRetailPARow (r : RetailPARowRaw) : Except String RetailPARow :=
  match r.granted with
  | some g => Except.ok ⟨r.groupname, r.IID, r.requestdate, g⟩
  | none => Except.error "conversion to f64 failed"

/-- The strict cast of the retail PA dataframe. -/
def castRetailPA (rs : List RetailPARowRaw) : Except String (List RetailPARow) :=
  rs.mapM castRetailPARow

/-- The body of `calculate_retail_mlr` as a fallible computation over raw
PA input. -/
def calculate_retail_mlr_body (PA : List RetailPARowRaw)
    (ACTIVE_ENROLLEE : List EnrolleeRow) (M_PLAN : List MPlanRow)
    (G_PLAN : List GPlanRow) (GROUPS : List RGroupRow) (PLAN : List PlanRow) :
    Except String (List (String × Option String × ℚ) ×
      List (Option String × ℚ × Option ℚ)) := do
  let pa ← castRetailPA PA
  pure (calculate_retail_mlr pa ACTIVE_ENROLLEE M_PLAN G_PLAN GROUPS PLAN)

/-- Embedding of the `try/except` wrapper of `calculate_retail_mlr`
(MLR.py lines 542 and 712-714). -/
def calculate_retail_mlr_caught (PA : List RetailPARowRaw)
    (ACTIVE_ENROLLEE : List EnrolleeRow) (M_PLAN : List MPlanRow)
    (G_PLAN : List GPlanRow) (GROUPS : List RGroupRow) (PLAN : List PlanRow) :
    List (String × Option String × ℚ) × List (Option String × ℚ × Option ℚ) :=
  match calculate_retail_mlr_body PA ACTIVE_ENROLLEE M_PLAN G_PLAN GROUPS PLAN with
  | Except.ok r => r
  | Except.error _ => ([], [])

/-- C8. Whenever the body of `calculate_mlr` or of `calculate_retail_mlr`
raises, the wrapper catches the exception and returns a pair of empty
dataframes — the same value the functions return on empty input, so a
caller cannot tell "error" from "no data" by the return value. -/
theorem mlr_exceptions_caught :
    (∀ (PA : List PARow) (GC : List GroupContractRow) (CL : List ClaimRowRaw)
        (GR : List GroupRow) (DB : List DebitRow) (e : String),
        calculate_mlr_body PA GC CL GR DB = Except.error e →
        calculate_mlr_caught PA GC CL GR DB = ([], [])) ∧
    (∀ (PA : List RetailPARowRaw) (enr : List EnrolleeRow) (MP : List MPlanRow)
        (GP : List GPlanRow) (GR : List RGroupRow) (PL : List PlanRow) (e : String),
        calculate_retail_mlr_body PA enr MP GP GR PL = Except.error e →
        calculate_retail_mlr_caught PA enr MP GP GR PL = ([], [])) ∧
    calculate_mlr [] [] [] [] [] = ([], []) ∧
    calculate_retail_mlr [] [] [] [] [] [] = ([], []) := by
  refine ⟨?_, ?_, by rfl, by rfl⟩
  · intro PA GC CL GR DB e he
    unfold calculate_mlr_caught
    rw [he]
  · intro PA enr MP GP GR PL e he
    unfold calculate_retail_mlr_caught
    rw [he]

/-- A raw CLAIMS row whose amount fails the strict cast. -/
def exBadClaim : List ClaimRowRaw := [⟨"7", 3, none⟩]

/-- A raw retail PA row whose granted amount fails the strict cast. -/
def exBadRetailPA : List RetailPARowRaw := [⟨"FAMILY SCHEME", "L1", 3, none⟩]

/-- Witness for C8: on inputs whose strict casts raise, both wrappers
return the empty pair. -/
theorem mlr_exceptions_caught_witness :
    calculate_mlr_body [] [] exBadClaim [] [] =
      Except.error "conversion to f64 failed" ∧
    calculate_mlr_caught [] [] exBadClaim [] [] = ([], []) ∧
    calculate_retail_mlr_body [] [] [] [] [] [] =
      Except.ok (calculate_retail_mlr [] [] [] [] [] []) ∧
    calculate_retail_mlr_body exBadRetailPA [] [] [] [] [] =
      Except.error "conversion to f64 failed" ∧
    calculate_retail_mlr_caught exBadRetailPA [] [] [] [] [] = ([], []) := by
  refine ⟨by rfl, ?_, by rfl, by rfl, ?_⟩
  · exact mlr_exceptions_caught.1 [] [] exBadClaim [] [] "conversion to f64 failed" (by rfl)
  · exact mlr_exceptions_caught.2.1 exBadRetailPA [] [] [] [] []
      "conversion to f64 failed" (by rfl)
